import Mathlib

/-!
# Verification of the emotion-engine affective state core

Shallow embedding of the `@openclaw/emotion-engine` TypeScript sources in
Lean 4 over exact rational arithmetic (`ℚ` in place of IEEE doubles), with
theorems settling the frozen specification claims.

Functions present under `src/` (`rumination.ts`, the goal-modulation module,
`state-file.ts`, the personality-presets module, `classifier.ts`,
`custom-taxonomy.ts`) are translated directly from the source.  The repository
modules `emotion-model.ts`, `personality.ts`, `mapping.ts`, `state-manager.ts`
and `migrate-v1.ts` are referenced by tests and callers but their
implementations are not under `src/`; the corresponding definitions below are
modelled from the specification (each such definition's doc comment says so).

I/O-performing code (file locking, HTTP classification, state-file reads) is
embedded by passing the outcome of each I/O step as an explicit argument.
-/

-- ===========================================================================
-- Data model (types.ts, modelled from the spec §3)
-- ===========================================================================

/-- The seven dimension names of the dimensional state. -/
inductive DimName where
  | pleasure | arousal | dominance | connection | curiosity | energy | trust
  deriving DecidableEq, Repr

instance : Fintype DimName :=
  ⟨⟨{.pleasure, .arousal, .dominance, .connection, .curiosity, .energy, .trust}, by decide⟩,
    by intro x; cases x <;> decide⟩

/-- The six basic-emotion names (Ekman). -/
inductive EmoName where
  | happiness | sadness | anger | fear | disgust | surprise
  deriving DecidableEq, Repr

instance : Fintype EmoName :=
  ⟨⟨{.happiness, .sadness, .anger, .fear, .disgust, .surprise}, by decide⟩,
    by intro x; cases x <;> decide⟩

/-- Dimensional state: one rational per dimension name. -/
abbrev Dims := DimName → ℚ

/-- Basic-emotion levels: one rational per emotion name. -/
abbrev Emos := EmoName → ℚ

/-- OCEAN personality profile (types.ts). -/
structure OCEANProfile where
  openness : ℚ
  conscientiousness : ℚ
  extraversion : ℚ
  agreeableness : ℚ
  neuroticism : ℚ
  deriving DecidableEq, Repr

/-- A classified, applied emotional stimulus (types.ts `EmotionStimulus`). -/
structure EmotionStimulus where
  id : String
  timestamp : String
  label : String
  intensity : ℚ
  trigger : String
  deriving DecidableEq, Repr

/-- One active rumination entry (types.ts `RuminationEntry`). -/
structure RuminationEntry where
  stimulusId : String
  label : String
  stage : ℕ
  intensity : ℚ
  lastStageTimestamp : String
  deriving DecidableEq, Repr

/-- Rumination state: the list of active entries (types.ts `RuminationState`). -/
structure RuminationState where
  active : List RuminationEntry
  deriving DecidableEq, Repr

/-- `pleasure`, `arousal`, `dominance` are bipolar; the four extension axes are
unipolar (spec §3). -/
def isBipolar : DimName → Bool
  | .pleasure => true
  | .arousal => true
  | .dominance => true
  | _ => false

-- ===========================================================================
-- Emotion primitives (modelled from the spec §4.1; emotion-model.ts is not
-- under src/, only emotion-model.test.ts is)
-- ===========================================================================

/-- Modelled from the spec: `emotion-model.ts` is not under src/. Clamp a
value to `[0,1]` (unipolar dimensions, emotions, traits). -/
def clamp01 (v : ℚ) : ℚ := max 0 (min 1 v)

/-- Modelled from the spec: `emotion-model.ts` is not under src/. Clamp a
value to `[-1,1]` (bipolar dimensions). -/
def clampBipolar (v : ℚ) : ℚ := max (-1) (min 1 v)

/-- Modelled from the spec: `emotion-model.ts` is not under src/. Clamp a
value to the named dimension's range. -/
def clampDimension (d : DimName) (v : ℚ) : ℚ :=
  if isBipolar d then clampBipolar v else clamp01 v

/-- Modelled from the spec: `emotion-model.ts` is not under src/. Default
dimensional state: bipolar axes 0, unipolar axes 0.5 (spec §3). -/
def createDefaultDimensionalState : Dims := fun d =>
  if isBipolar d then 0 else 0.5

/-- Modelled from the spec: `emotion-model.ts` is not under src/. Default
basic emotions, all zero (spec §3). -/
def createDefaultBasicEmotions : Emos := fun _ => 0

/-- Modelled from the spec: `personality.ts` is not under src/. Default
personality: every trait 0.5 (spec §3). -/
def createDefaultPersonality : OCEANProfile :=
  { openness := 0.5, conscientiousness := 0.5, extraversion := 0.5,
    agreeableness := 0.5, neuroticism := 0.5 }

-- ===========================================================================
-- Rumination (src/src/model/rumination.ts, translated from the source)
-- ===========================================================================

/-- `MIN_INTENSITY` in rumination.ts. -/
def MIN_INTENSITY : ℚ := 0.05

/-- `RUMINATION_EFFECT_SCALE` in rumination.ts. -/
def RUMINATION_EFFECT_SCALE : ℚ := 0.3

/-- `createEmptyRuminationState` in rumination.ts. -/
def createEmptyRuminationState : RuminationState := { active := [] }

/-- `shouldStartRumination` in rumination.ts, translated line by line. -/
def shouldStartRumination (intensity threshold probability : ℚ) : Bool :=
  if probability ≤ 0 then false
  else if intensity ≤ threshold then false
  else if 1 ≤ probability then true
  else
    let adjustedThreshold := threshold + (1 - probability) * 0.3
    decide (adjustedThreshold < intensity)

/-- `startRumination` in rumination.ts; the source stamps
`new Date().toISOString()`, passed here as `now`. -/
def startRumination (state : RuminationState) (stimulus : EmotionStimulus)
    (now : String) : RuminationState :=
  if state.active.any (fun e => e.stimulusId = stimulus.id) then state
  else
    { active := state.active ++
        [{ stimulusId := stimulus.id, label := stimulus.label, stage := 0,
           intensity := stimulus.intensity, lastStageTimestamp := now }] }

/-- `advanceRumination` in rumination.ts; the source stamps
`new Date().toISOString()`, passed here as `now`. -/
def advanceRumination (state : RuminationState) (maxStages : ℕ)
    (decayFactor : ℚ) (now : String) : RuminationState :=
  { active := state.active.filterMap (fun entry =>
      let nextStage := entry.stage + 1
      let nextIntensity := entry.intensity * decayFactor
      if maxStages ≤ nextStage ∨ nextIntensity < MIN_INTENSITY then none
      else some { entry with
                  stage := nextStage
                  intensity := nextIntensity
                  lastStageTimestamp := now }) }

-- ===========================================================================
-- Goal modulation (src/unnamed/part_001, translated from the source)
-- ===========================================================================

/-- A behavioural goal inferred from personality (`PersonalityGoal`). -/
structure PersonalityGoal where
  type : String
  strength : ℚ
  threatEmotions : List String
  achievementEmotions : List String
  deriving DecidableEq, Repr

/-- Result of `computeGoalModulation` (`GoalModulation`). -/
structure GoalModulation where
  intensityMultiplier : ℚ
  contributingGoals : List String
  deriving DecidableEq, Repr

/-- `GOAL_THRESHOLD` in the goal module. -/
def GOAL_THRESHOLD : ℚ := 0.6

/-- `inferGoals`, translated from the source: conditional pushes become
conditional singleton appends in the same order. -/
def inferGoals (p : OCEANProfile) : List PersonalityGoal :=
  (if GOAL_THRESHOLD < p.conscientiousness then
    [{ type := "task_completion",
       strength := (p.conscientiousness - GOAL_THRESHOLD) / (1 - GOAL_THRESHOLD),
       threatEmotions := ["frustrated", "anxious", "confused", "fatigued"],
       achievementEmotions := ["happy", "relieved", "energized", "focused"] }]
   else []) ++
  (if GOAL_THRESHOLD < p.openness then
    [{ type := "exploration",
       strength := (p.openness - GOAL_THRESHOLD) / (1 - GOAL_THRESHOLD),
       threatEmotions := ["bored", "frustrated"],
       achievementEmotions := ["curious", "excited", "surprised"] }]
   else []) ++
  (if GOAL_THRESHOLD < p.agreeableness then
    [{ type := "social_harmony",
       strength := (p.agreeableness - GOAL_THRESHOLD) / (1 - GOAL_THRESHOLD),
       threatEmotions := ["angry", "disgusted", "lonely"],
       achievementEmotions := ["connected", "trusting", "happy", "calm"] }]
   else []) ++
  (if GOAL_THRESHOLD < p.conscientiousness ∧ p.neuroticism < 0.4 then
    [{ type := "self_regulation",
       strength := min ((p.conscientiousness - GOAL_THRESHOLD) / (1 - GOAL_THRESHOLD))
         ((0.4 - p.neuroticism) / 0.4),
       threatEmotions := ["angry", "anxious"],
       achievementEmotions := ["calm", "focused", "relieved"] }]
   else []) ++
  (if 0.7 < p.openness ∧ GOAL_THRESHOLD < p.extraversion then
    [{ type := "novelty_seeking",
       strength := min ((p.openness - 0.7) / 0.3)
         ((p.extraversion - GOAL_THRESHOLD) / (1 - GOAL_THRESHOLD)),
       threatEmotions := ["bored", "fatigued"],
       achievementEmotions := ["excited", "curious", "surprised", "energized"] }]
   else [])

/-- One iteration of the `computeGoalModulation` loop: threat amplification
takes precedence over achievement amplification (the source's else-if). -/
def goalModStep (label : String) (acc : GoalModulation)
    (goal : PersonalityGoal) : GoalModulation :=
  if goal.threatEmotions.contains label then
    { intensityMultiplier := acc.intensityMultiplier + goal.strength * 0.3,
      contributingGoals := acc.contributingGoals ++ [goal.type] }
  else if goal.achievementEmotions.contains label then
    { intensityMultiplier := acc.intensityMultiplier + goal.strength * 0.2,
      contributingGoals := acc.contributingGoals ++ [goal.type] }
  else acc

/-- `computeGoalModulation`, translated from the source. -/
def computeGoalModulation (goals : List PersonalityGoal) (emotionLabel : String)
    (_baseIntensity : ℚ) : GoalModulation :=
  goals.foldl (goalModStep emotionLabel.toLower)
    { intensityMultiplier := 1, contributingGoals := [] }

/-- `applyGoalModulation`, translated from the source. -/
def applyGoalModulation (goals : List PersonalityGoal) (emotionLabel : String)
    (intensity : ℚ) : ℚ :=
  min 1 (intensity * (computeGoalModulation goals emotionLabel intensity).intensityMultiplier)

/-- The spec's formula for the modulation multiplier (§4.4): `1.0` plus
`0.3·strength` for each goal whose threat set contains the label plus
`0.2·strength` for each goal whose achievement set contains it. Stated from
the spec's words, to be compared with `computeGoalModulation`. -/
def specGoalMultiplier (goals : List PersonalityGoal) (label : String) : ℚ :=
  1 + 0.3 * ((goals.filter (fun g => g.threatEmotions.contains label)).map
        PersonalityGoal.strength).sum
    + 0.2 * ((goals.filter (fun g => g.achievementEmotions.contains label)).map
        PersonalityGoal.strength).sum

-- Helper lemmas about the modulation fold.

lemma goalMod_foldl_multiplier (label : String) (goals : List PersonalityGoal)
    (acc : GoalModulation)
    (hdisj : ∀ g ∈ goals, g.threatEmotions.contains label = false ∨
      g.achievementEmotions.contains label = false) :
    (goals.foldl (goalModStep label) acc).intensityMultiplier =
      acc.intensityMultiplier
        + 0.3 * ((goals.filter (fun g => g.threatEmotions.contains label)).map
              PersonalityGoal.strength).sum
        + 0.2 * ((goals.filter (fun g => g.achievementEmotions.contains label)).map
              PersonalityGoal.strength).sum := by
  induction goals generalizing acc with
  | nil => simp
  | cons g gs ih =>
    have hg := hdisj g (List.mem_cons_self g gs)
    have hrest : ∀ g' ∈ gs, g'.threatEmotions.contains label = false ∨
        g'.achievementEmotions.contains label = false :=
      fun g' h' => hdisj g' (List.mem_cons_of_mem g h')
    by_cases ht : g.threatEmotions.contains label
    · have ha : g.achievementEmotions.contains label = false := by
        rcases hg with h | h
        · exact absurd (h.symm.trans ht) Bool.false_ne_true
        · exact h
      simp only [List.foldl_cons, List.filter_cons, ht, ha, goalModStep, if_pos,
        Bool.false_eq_true, if_false, ite_true, List.map_cons, List.sum_cons]
      rw [ih _ hrest]
      ring
    · by_cases ha : g.achievementEmotions.contains label
      · have ht' : g.threatEmotions.contains label = false := by
          simpa using ht
        simp only [List.foldl_cons, List.filter_cons, ht', ha, goalModStep,
          Bool.false_eq_true, if_false, ite_true, List.map_cons, List.sum_cons]
        rw [ih _ hrest]
        ring
      · have ht' : g.threatEmotions.contains label = false := by simpa using ht
        have ha' : g.achievementEmotions.contains label = false := by simpa using ha
        simp only [List.foldl_cons, List.filter_cons, ht', ha', goalModStep,
          Bool.false_eq_true, if_false]
        exact ih _ hrest

/-- For two concretely disjoint string lists, no label is contained in both. -/
lemma contains_disjoint {t a : List String}
    (h : a.all (fun s => !t.contains s) = true) (label : String) :
    t.contains label = false ∨ a.contains label = false := by
  by_cases hc : a.contains label = true
  · left
    have hmem : label ∈ a := by simpa using hc
    have := List.all_eq_true.mp h label hmem
    simpa using this
  · right
    simpa using hc

/-- Per-goal disjointness of threat and achievement label sets for every goal
the source can infer. -/
lemma inferGoals_disjoint (p : OCEANProfile) (label : String) :
    ∀ g ∈ inferGoals p, g.threatEmotions.contains label = false ∨
      g.achievementEmotions.contains label = false := by
  intro g hg
  simp only [inferGoals, List.mem_append] at hg
  rcases hg with (((hg | hg) | hg) | hg) | hg <;> split_ifs at hg <;>
      simp only [List.mem_singleton, List.not_mem_nil] at hg <;> subst hg <;>
      dsimp only <;>
    exact contains_disjoint (by decide) label

/-- Every goal the source infers has non-negative strength. -/
lemma inferGoals_strength_nonneg (p : OCEANProfile) :
    ∀ g ∈ inferGoals p, 0 ≤ g.strength := by
  intro g hg
  simp only [inferGoals, List.mem_append] at hg
  rcases hg with (((hg | hg) | hg) | hg) | hg <;> split_ifs at hg with hc <;>
      simp only [List.mem_singleton, List.not_mem_nil] at hg <;> subst hg <;>
      try dsimp only
  · simp only [GOAL_THRESHOLD] at hc ⊢
    exact div_nonneg (by linarith) (by norm_num)
  · simp only [GOAL_THRESHOLD] at hc ⊢
    exact div_nonneg (by linarith) (by norm_num)
  · simp only [GOAL_THRESHOLD] at hc ⊢
    exact div_nonneg (by linarith) (by norm_num)
  · obtain ⟨hc1, hc2⟩ := hc
    simp only [GOAL_THRESHOLD] at hc1 ⊢
    exact le_min (div_nonneg (by linarith) (by norm_num))
      (div_nonneg (by linarith) (by norm_num))
  · obtain ⟨hc1, hc2⟩ := hc
    simp only [GOAL_THRESHOLD] at hc2 ⊢
    exact le_min (div_nonneg (by linarith) (by norm_num))
      (div_nonneg (by linarith) (by norm_num))

/-- The modulation fold never decreases the multiplier when all strengths are
non-negative. -/
lemma goalMod_foldl_multiplier_ge (label : String) (goals : List PersonalityGoal)
    (acc : GoalModulation) (hpos : ∀ g ∈ goals, 0 ≤ g.strength) :
    acc.intensityMultiplier ≤ (goals.foldl (goalModStep label) acc).intensityMultiplier := by
  induction goals generalizing acc with
  | nil => simp
  | cons g gs ih =>
    have hg := hpos g (List.mem_cons_self g gs)
    have hrest : ∀ g' ∈ gs, 0 ≤ g'.strength :=
      fun g' h' => hpos g' (List.mem_cons_of_mem g h')
    calc acc.intensityMultiplier
        ≤ (goalModStep label acc g).intensityMultiplier := by
          unfold goalModStep
          split_ifs <;> try dsimp only
          all_goals nlinarith [hg]
      _ ≤ _ := ih _ hrest

-- ===========================================================================
-- Claim theorems: C2, C3
-- ===========================================================================

/-- C2: the rumination ignition decision `shouldStartRumination(i, t, p)`
returns false when `p ≤ 0`; returns true iff `i > t` when `p ≥ 1`; and for
`0 < p < 1` returns true iff `i > t + 0.3·(1 − p)`. -/
theorem shouldStartRumination_spec (i t p : ℚ) :
    (p ≤ 0 → shouldStartRumination i t p = false) ∧
    (1 ≤ p → (shouldStartRumination i t p = true ↔ t < i)) ∧
    (0 < p → p < 1 →
      (shouldStartRumination i t p = true ↔ t + 0.3 * (1 - p) < i)) := by
  unfold shouldStartRumination
  split_ifs with h1 h2 h3
  · exact ⟨fun _ => rfl, fun hp => absurd (le_trans hp h1) (by norm_num),
      fun hp0 _ => absurd hp0 (not_lt.mpr h1)⟩
  · refine ⟨fun _ => rfl, fun hp => ?_, fun hp0 hp1 => ?_⟩
    · exact ⟨fun h => by simp at h, fun h => absurd h2 (not_le.mpr h)⟩
    · exact ⟨fun h => by simp at h, fun h => absurd h2 (not_le.mpr (by nlinarith))⟩
  · refine ⟨fun hp => absurd hp h1, fun _ => ?_, fun _ hp1 => absurd hp1 (not_lt.mpr h3)⟩
    exact ⟨fun _ => not_le.mp h2, fun _ => rfl⟩
  · refine ⟨fun hp => absurd hp h1, fun hp => absurd hp h3, fun hp0 hp1 => ?_⟩
    simp only [decide_eq_true_eq]
    constructor
    · intro h; linarith
    · intro h; linarith

/-- C3: one call of `advanceRumination` maps each active entry
`{stage, intensity}` to `{stage + 1, intensity · decayFactor}`, keeping exactly
those resulting entries with `stage + 1 < maxStages` and
`intensity · decayFactor ≥ 0.05`, and dropping all others; consequently
(for any `maxStages` large enough that the entry survives, `≥ 3`) starting
from intensity 0.9 with decayFactor 0.8, two advances give stage 2 and
intensity 0.576. -/
theorem advanceRumination_spec :
    (∀ (s : RuminationState) (maxStages : ℕ) (df : ℚ) (now : String),
      (advanceRumination s maxStages df now).active =
        s.active.filterMap (fun e =>
          if e.stage + 1 < maxStages ∧ 0.05 ≤ e.intensity * df then
            some { e with
                   stage := e.stage + 1
                   intensity := e.intensity * df
                   lastStageTimestamp := now }
          else none)) ∧
    (∀ (e0 : RuminationEntry) (now1 now2 : String) (maxStages : ℕ),
      3 ≤ maxStages → e0.stage = 0 → e0.intensity = 0.9 →
      (advanceRumination (advanceRumination ⟨[e0]⟩ maxStages 0.8 now1)
          maxStages 0.8 now2).active =
        [{ e0 with stage := 2, intensity := 0.576, lastStageTimestamp := now2 }]) := by
  constructor
  · intro s maxStages df now
    simp only [advanceRumination]
    congr 1
    funext e
    by_cases h1 : e.stage + 1 < maxStages
    · by_cases h2 : (0.05 : ℚ) ≤ e.intensity * df
      · simp [h1, h2, MIN_INTENSITY, not_le.mpr h1, not_lt.mpr h2]
      · simp [h1, h2, MIN_INTENSITY, not_le.mp h2]
    · simp [h1, MIN_INTENSITY, not_lt.mp h1]
  · intro e0 now1 now2 maxStages hms hstage hint
    have h1 : ¬(maxStages ≤ e0.stage + 1) := by omega
    have h2 : ¬(e0.intensity * 0.8 < MIN_INTENSITY) := by
      rw [hint]; norm_num [MIN_INTENSITY]
    have h3 : ¬(maxStages ≤ e0.stage + 1 + 1) := by omega
    have h4 : ¬(e0.intensity * 0.8 * 0.8 < MIN_INTENSITY) := by
      rw [hint]; norm_num [MIN_INTENSITY]
    simp only [advanceRumination, List.filterMap, h1, h2, h3, h4, if_neg,
      not_false_eq_true, or_self, or_false, false_or, ite_false]
    simp [h1, h2, h3, h4, hstage, hint]
    norm_num

/-- Witness for C3 at concrete inputs: a single entry at stage 0, intensity
0.9 advanced twice with `maxStages = 5`, `decayFactor = 0.8`. -/
theorem advanceRumination_spec_witness :
    (advanceRumination (advanceRumination
        ⟨[{ stimulusId := "s1", label := "angry", stage := 0, intensity := 0.9,
            lastStageTimestamp := "t0" }]⟩ 5 0.8 "t1") 5 0.8 "t2").active =
      [{ stimulusId := "s1", label := "angry", stage := 2, intensity := 0.576,
         lastStageTimestamp := "t2" }] :=
  advanceRumination_spec.2
    { stimulusId := "s1", label := "angry", stage := 0, intensity := 0.9,
      lastStageTimestamp := "t0" } "t1" "t2" 5 (by norm_num) rfl rfl

/-- Witness for C2 at concrete inputs. -/
theorem shouldStartRumination_spec_witness :
    shouldStartRumination 0.9 0.5 0 = false ∧
    shouldStartRumination 0.9 0.5 1 = true ∧
    shouldStartRumination 0.9 0.5 0.5 = true := by
  refine ⟨(shouldStartRumination_spec 0.9 0.5 0).1 le_rfl,
    ((shouldStartRumination_spec 0.9 0.5 1).2.1 le_rfl).mpr (by norm_num),
    ((shouldStartRumination_spec 0.9 0.5 0.5).2.2 (by norm_num) (by norm_num)).mpr
      (by norm_num)⟩

-- ===========================================================================
-- Claim theorems: C4, C10
-- ===========================================================================

/-- C4: for every goal list inferred from a personality and every emotion
label, the goal-modulation multiplier equals 1.0 plus 0.3·strength for each
goal whose threat set contains the lowercased label plus 0.2·strength for each
goal whose achievement set contains it, and the effective intensity is
min(1, intensity · multiplier). -/
theorem goalModulation_spec (p : OCEANProfile) (label : String) (i : ℚ) :
    (computeGoalModulation (inferGoals p) label i).intensityMultiplier =
      specGoalMultiplier (inferGoals p) label.toLower ∧
    applyGoalModulation (inferGoals p) label i =
      min 1 (i * specGoalMultiplier (inferGoals p) label.toLower) := by
  have h := goalMod_foldl_multiplier label.toLower (inferGoals p)
    { intensityMultiplier := 1, contributingGoals := [] }
    (inferGoals_disjoint p label.toLower)
  have hmul : (computeGoalModulation (inferGoals p) label i).intensityMultiplier =
      specGoalMultiplier (inferGoals p) label.toLower := by
    rw [computeGoalModulation, h, specGoalMultiplier]
  exact ⟨hmul, by rw [applyGoalModulation, hmul]⟩

/-- C10: for every goal list inferred from a personality whose traits all lie
in [0,1] and every intensity i in [0,1], `applyGoalModulation` lies in [i, 1]:
goal modulation never reduces an intensity below its input value, because
every inferred goal strength is non-negative so the multiplier is at least 1. -/
theorem applyGoalModulation_bounds (p : OCEANProfile) (label : String) (i : ℚ)
    (_htraits : 0 ≤ p.openness ∧ p.openness ≤ 1 ∧
      0 ≤ p.conscientiousness ∧ p.conscientiousness ≤ 1 ∧
      0 ≤ p.extraversion ∧ p.extraversion ≤ 1 ∧
      0 ≤ p.agreeableness ∧ p.agreeableness ≤ 1 ∧
      0 ≤ p.neuroticism ∧ p.neuroticism ≤ 1)
    (hi0 : 0 ≤ i) (hi1 : i ≤ 1) :
    i ≤ applyGoalModulation (inferGoals p) label i ∧
    applyGoalModulation (inferGoals p) label i ≤ 1 ∧
    1 ≤ (computeGoalModulation (inferGoals p) label i).intensityMultiplier := by
  have hm : 1 ≤ (computeGoalModulation (inferGoals p) label i).intensityMultiplier := by
    have := goalMod_foldl_multiplier_ge label.toLower (inferGoals p)
      { intensityMultiplier := 1, contributingGoals := [] }
      (inferGoals_strength_nonneg p)
    simpa [computeGoalModulation] using this
  refine ⟨?_, min_le_left _ _, hm⟩
  unfold applyGoalModulation
  exact le_min hi1 (by nlinarith)

/-- Witness for C10 at a concrete conscientious, emotionally stable
personality and the threatening label "frustrated" at intensity 0.5. -/
theorem applyGoalModulation_bounds_witness :
    (0.5 : ℚ) ≤ applyGoalModulation
        (inferGoals ⟨0.5, 0.9, 0.5, 0.5, 0.2⟩) "frustrated" 0.5 ∧
      applyGoalModulation (inferGoals ⟨0.5, 0.9, 0.5, 0.5, 0.2⟩) "frustrated" 0.5 ≤ 1 ∧
      1 ≤ (computeGoalModulation (inferGoals ⟨0.5, 0.9, 0.5, 0.5, 0.2⟩)
        "frustrated" 0.5).intensityMultiplier :=
  applyGoalModulation_bounds ⟨0.5, 0.9, 0.5, 0.5, 0.2⟩ "frustrated" 0.5
    (by norm_num) (by norm_num) (by norm_num)

-- ===========================================================================
-- Mapping table (modelled from the spec §4.3; mapping.ts is not under src/,
-- only its tests are). Exact coefficients are a design choice in the spec;
-- representative values satisfying the required qualitative signs are used.
-- ===========================================================================

/-- A label's effect record: per-dimension and per-emotion deltas
(types.ts `EmotionDimensionDelta`, sparse dictionaries modelled as total
functions defaulting to 0). -/
structure EmotionDelta where
  dims : DimName → ℚ
  emos : EmoName → ℚ

/-- Modelled from the spec: `mapping.ts` is not under src/. The static
emotion mapping table with alias resolution, lowercased lookup. -/
def getEmotionMapping (label : String) : Option EmotionDelta :=
  match label.toLower with
  | "happy" => some ⟨fun d => if d = .pleasure then 0.4 else 0,
      fun e => if e = .happiness then 0.5 else 0⟩
  | "joy" => some ⟨fun d => if d = .pleasure then 0.4 else 0,
      fun e => if e = .happiness then 0.5 else 0⟩
  | "angry" => some ⟨fun d => if d = .pleasure then -0.4 else
        if d = .arousal then 0.4 else 0,
      fun e => if e = .anger then 0.5 else 0⟩
  | "sad" => some ⟨fun d => if d = .pleasure then -0.4 else
        if d = .arousal then -0.2 else 0,
      fun e => if e = .sadness then 0.5 else 0⟩
  | "fearful" => some ⟨fun d => if d = .pleasure then -0.3 else
        if d = .arousal then 0.4 else 0,
      fun e => if e = .fear then 0.5 else 0⟩
  | "curious" => some ⟨fun d => if d = .curiosity then 0.3 else 0, fun _ => 0⟩
  | "connected" => some ⟨fun d => if d = .connection then 0.3 else 0, fun _ => 0⟩
  | "neutral" => some ⟨fun _ => 0, fun _ => 0⟩
  | _ => none

/-- Modelled from the spec: `mapping.ts` is not under src/. Apply a label's
deltas scaled by intensity, clamping each dimension and emotion to its range
(mapping tests: "clamps results to valid ranges"); unknown labels leave the
state unchanged. -/
def applyEmotionMapping (dimensions : Dims) (emotions : Emos) (label : String)
    (intensity : ℚ) : Dims × Emos :=
  match getEmotionMapping label with
  | none => (dimensions, emotions)
  | some m =>
    (fun d => clampDimension d (dimensions d + m.dims d * intensity),
     fun e => clamp01 (emotions e + m.emos e * intensity))

/-- `applyRuminationEffects` in rumination.ts, translated from the source:
fold each active entry's mapping at `intensity · RUMINATION_EFFECT_SCALE`
over the dimension/emotion pair, left to right. -/
def applyRuminationEffects (rumination : RuminationState) (dimensions : Dims)
    (emotions : Emos) : Dims × Emos :=
  rumination.active.foldl (fun acc entry =>
      applyEmotionMapping acc.1 acc.2 entry.label
        (entry.intensity * RUMINATION_EFFECT_SCALE))
    (dimensions, emotions)

-- ===========================================================================
-- Personality derivations (modelled from the spec §4.2; personality.ts is
-- not under src/)
-- ===========================================================================

/-- Modelled from the spec: `personality.ts` is not under src/. Baseline
derivation from OCEAN, each value clamped to its dimension range. -/
def computeBaseline (p : OCEANProfile) : Dims := fun d =>
  match d with
  | .pleasure => clampBipolar (0.3 * (p.agreeableness - p.neuroticism))
  | .arousal => clampBipolar (0.3 * (p.extraversion - 0.5) * 2)
  | .dominance => clampBipolar (0.3 * (p.conscientiousness - 0.5) * 2)
  | .connection => clamp01 (0.3 + 0.4 * p.agreeableness)
  | .curiosity => clamp01 (0.3 + 0.4 * p.openness)
  | .energy => clamp01 (0.3 + 0.4 * p.extraversion)
  | .trust => clamp01 (0.3 + 0.4 * (p.agreeableness - 0.5 * p.neuroticism + 0.5))

/-- Modelled from the spec: `personality.ts` is not under src/. Per-dimension
decay half-lives (hours): bipolar divided by `1 + 0.5·N`, unipolar multiplied
by `1 + 0.5·C`. -/
def computeDimensionDecayRates (p : OCEANProfile) (halfLifeHours : ℚ := 12) :
    Dims := fun d =>
  if isBipolar d then halfLifeHours / (1 + 0.5 * p.neuroticism)
  else halfLifeHours * (1 + 0.5 * p.conscientiousness)

/-- Modelled from the spec: `personality.ts` is not under src/. Per-emotion
decay half-lives: anger/fear scaled by `1/(1 + 0.5·N)`, happiness by
`1 + 0.3·E`, others unchanged. -/
def computeEmotionDecayRates (p : OCEANProfile) (halfLifeHours : ℚ := 12) :
    Emos := fun e =>
  match e with
  | .anger => halfLifeHours / (1 + 0.5 * p.neuroticism)
  | .fear => halfLifeHours / (1 + 0.5 * p.neuroticism)
  | .happiness => halfLifeHours * (1 + 0.3 * p.extraversion)
  | _ => halfLifeHours

-- ===========================================================================
-- Top-level engine state (types.ts, modelled from the spec §3)
-- ===========================================================================

/-- A per-role bucket stimulus as stored under `users`/`agents` (v2). -/
structure BucketStimulus where
  timestamp : String
  label : String
  intensity : ℚ
  reason : String
  confidence : ℚ
  deriving DecidableEq, Repr

/-- A per-role bucket: latest stimulus plus history. -/
structure RoleBucket where
  latest : Option BucketStimulus
  history : List BucketStimulus
  deriving DecidableEq, Repr

/-- State metadata. -/
structure StateMeta where
  totalUpdates : ℕ
  createdAt : String
  deriving DecidableEq, Repr

/-- The persisted top-level engine state (types.ts `EmotionEngineState`;
JSON string-keyed objects modelled as association lists). -/
structure EmotionEngineState where
  version : ℕ
  lastUpdated : String
  personality : OCEANProfile
  dimensions : Dims
  baseline : Dims
  decayRates : Dims
  emotionDecayRates : Emos
  basicEmotions : Emos
  recentStimuli : List EmotionStimulus
  rumination : RuminationState
  users : List (String × RoleBucket)
  agents : List (String × RoleBucket)
  meta : StateMeta

/-- `buildEmptyState` in state-file.ts (src/unnamed/part_005), translated
from the source; the timestamp is passed as `now`. -/
def buildEmptyState (now : String) : EmotionEngineState :=
  { version := 2, lastUpdated := now,
    personality := createDefaultPersonality,
    dimensions := createDefaultDimensionalState,
    baseline := computeBaseline createDefaultPersonality,
    decayRates := computeDimensionDecayRates createDefaultPersonality,
    emotionDecayRates := computeEmotionDecayRates createDefaultPersonality,
    basicEmotions := createDefaultBasicEmotions,
    recentStimuli := [], rumination := createEmptyRuminationState,
    users := [], agents := [],
    meta := { totalUpdates := 0, createdAt := now } }

/-- `readStateFile` in state-file.ts, translated from the source. The
read/parse step is embedded as its outcome: `none` means the file was
missing, unreadable or unparseable (the source's catch), `some parsed` a
successfully parsed object. -/
def readStateFile (parsed : Option EmotionEngineState) (now : String) :
    EmotionEngineState :=
  match parsed with
  | none => buildEmptyState now
  | some s => if s.version ≠ 2 then buildEmptyState now else s

-- ===========================================================================
-- State-manager operations (modelled from the spec §4.6; state-manager.ts is
-- not under src/, only its callers are)
-- ===========================================================================

/-- Configuration knobs consumed by the operations below (types.ts
`DEFAULT_CONFIG`); the personality-derived rumination probability has no
formula in the spec and is abstracted as a configuration value. -/
structure EngineConfig where
  ruminationThreshold : ℚ
  ruminationProbability : ℚ
  ruminationMaxStages : ℕ
  ruminationDecayFactor : ℚ
  maxHistory : ℕ
  deriving DecidableEq, Repr

/-- Modelled from the spec: `state-manager.ts` is not under src/. Decay each
dimension toward its baseline and each basic emotion toward zero by
`Δ = (value − target)·(1 − 2^(−elapsed/halflife))`. The factor
`1 − 2^(−elapsed/halflife)` is irrational for most rational inputs, so it is
abstracted as a function `g elapsed halflife`, constrained to `[0,1]` in the
theorems (which holds for the spec's factor whenever `elapsed ≥ 0`). -/
def applyDecay (g : ℚ → ℚ → ℚ) (elapsedHours : ℚ)
    (s : EmotionEngineState) : EmotionEngineState :=
  { s with
    dimensions := fun d =>
      s.dimensions d + (s.baseline d - s.dimensions d) * g elapsedHours (s.decayRates d)
    basicEmotions := fun e =>
      s.basicEmotions e + (0 - s.basicEmotions e) * g elapsedHours (s.emotionDecayRates e) }

/-- Modelled from the spec: `state-manager.ts` is not under src/. Apply a
stimulus: resolve the label, apply goal modulation, apply dimension+emotion
deltas at the modulated intensity, start rumination when the ignition rule
fires, push the stimulus onto `recentStimuli` bounded by `maxHistory`, and
bump `meta.totalUpdates`. Identifier and timestamps are passed in. -/
def applyStimulus (cfg : EngineConfig) (s : EmotionEngineState) (label : String)
    (intensity : ℚ) (trigger stimId now : String) : EmotionEngineState :=
  let goals := inferGoals s.personality
  let modulated := applyGoalModulation goals label intensity
  let applied := applyEmotionMapping s.dimensions s.basicEmotions label modulated
  let stim : EmotionStimulus :=
    { id := stimId, timestamp := now, label := label,
      intensity := modulated, trigger := trigger }
  let rum :=
    if shouldStartRumination modulated cfg.ruminationThreshold cfg.ruminationProbability
    then startRumination s.rumination stim now
    else s.rumination
  { s with
    dimensions := applied.1
    basicEmotions := applied.2
    rumination := rum
    recentStimuli := (stim :: s.recentStimuli).take cfg.maxHistory
    meta := { s.meta with totalUpdates := s.meta.totalUpdates + 1 } }

/-- Modelled from the spec: `state-manager.ts` is not under src/. One
rumination advance step followed by effect re-application (spec §4.6 op 4),
composing `advanceRumination` and `applyRuminationEffects` from
rumination.ts. -/
def advanceRuminationOp (cfg : EngineConfig) (s : EmotionEngineState)
    (now : String) : EmotionEngineState :=
  let r := advanceRumination s.rumination cfg.ruminationMaxStages
    cfg.ruminationDecayFactor now
  let eff := applyRuminationEffects r s.dimensions s.basicEmotions
  { s with rumination := r, dimensions := eff.1, basicEmotions := eff.2 }

/-- The five OCEAN trait names. -/
inductive TraitName where
  | openness | conscientiousness | extraversion | agreeableness | neuroticism
  deriving DecidableEq, Repr

/-- Store a value into the named trait. -/
def setTrait (p : OCEANProfile) (t : TraitName) (v : ℚ) : OCEANProfile :=
  match t with
  | .openness => { p with openness := v }
  | .conscientiousness => { p with conscientiousness := v }
  | .extraversion => { p with extraversion := v }
  | .agreeableness => { p with agreeableness := v }
  | .neuroticism => { p with neuroticism := v }

/-- Modelled from the spec: `state-manager.ts` is not under src/. Clamp the
value, store the trait, recompute baseline and both decay tables
(spec §4.6 op 5). -/
def setPersonalityTrait (s : EmotionEngineState) (t : TraitName) (v : ℚ) :
    EmotionEngineState :=
  let p := setTrait s.personality t (clamp01 v)
  { s with
    personality := p
    baseline := computeBaseline p
    decayRates := computeDimensionDecayRates p
    emotionDecayRates := computeEmotionDecayRates p }

/-- Modelled from the spec: `state-manager.ts` is not under src/. Reset
dimensions/emotions/rumination/stimuli to defaults; retain personality,
baseline and `meta.createdAt`; bump `totalUpdates` (spec §4.6 op 6). -/
def resetState (s : EmotionEngineState) : EmotionEngineState :=
  { s with
    dimensions := createDefaultDimensionalState
    basicEmotions := createDefaultBasicEmotions
    rumination := createEmptyRuminationState
    recentStimuli := []
    meta := { s.meta with totalUpdates := s.meta.totalUpdates + 1 } }

-- ===========================================================================
-- Personality presets (src/unnamed/part_006, translated from the source)
-- ===========================================================================

/-- A catalogued preset (`PersonalityPreset`). -/
structure PersonalityPreset where
  id : String
  name : String
  shortDescription : String
  ocean : OCEANProfile
  rationale : String
  deriving DecidableEq, Repr

/-- `clampOcean` in the presets module. -/
def clampOcean (v : ℚ) : ℚ := max 0 (min 1 v)

/-- `clampProfile` in the presets module. -/
def clampProfile (profile : OCEANProfile) : OCEANProfile :=
  { openness := clampOcean profile.openness,
    conscientiousness := clampOcean profile.conscientiousness,
    extraversion := clampOcean profile.extraversion,
    agreeableness := clampOcean profile.agreeableness,
    neuroticism := clampOcean profile.neuroticism }

/-- The static `PRESETS` catalogue, translated from the source (rationale
strings abbreviated to their sources' opening words). -/
def PRESETS : List PersonalityPreset :=
  [{ id := "einstein", name := "Albert Einstein",
     shortDescription := "Theoretical physicist (Germany/US, 20th c.)",
     ocean := ⟨0.95, 0.9, 0.4, 0.5, 0.3⟩, rationale := "Biographical analyses" },
   { id := "marie-curie", name := "Marie Curie",
     shortDescription := "Physicist and chemist (Poland/France, 19th-20th c.)",
     ocean := ⟨0.9, 0.95, 0.3, 0.6, 0.5⟩, rationale := "Perseverance, solitary focus" },
   { id := "mandela", name := "Nelson Mandela",
     shortDescription := "Anti-apartheid leader, President of South Africa (20th c.)",
     ocean := ⟨0.9, 0.9, 0.85, 0.9, 0.1⟩, rationale := "Leadership analyses" },
   { id := "wangari-maathai", name := "Wangari Maathai",
     shortDescription := "Environmentalist and Nobel Peace laureate (Kenya, 20th c.)",
     ocean := ⟨0.9, 0.9, 0.7, 0.4, 0.3⟩, rationale := "Green Belt Movement founder" },
   { id := "frida-kahlo", name := "Frida Kahlo",
     shortDescription := "Painter (Mexico, 20th c.)",
     ocean := ⟨0.9, 0.58, 0.5, 0.75, 0.8⟩, rationale := "Art and writings" },
   { id := "confucius", name := "Confucius",
     shortDescription := "Philosopher and teacher (Ancient China)",
     ocean := ⟨0.6, 0.9, 0.4, 0.9, 0.2⟩, rationale := "Teachings" },
   { id := "simon-bolivar", name := "Simon Bolivar",
     shortDescription := "Liberator and revolutionary (South America, 19th c.)",
     ocean := ⟨0.9, 0.85, 0.8, 0.4, 0.7⟩, rationale := "Enlightenment reader" },
   { id := "sitting-bull", name := "Sitting Bull",
     shortDescription := "Lakota leader and resistance figure (Indigenous Americas, 19th c.)",
     ocean := ⟨0.4, 0.9, 0.6, 0.2, 0.3⟩, rationale := "Traditional, steadfast" },
   { id := "sejong", name := "Sejong the Great",
     shortDescription := "King and scholar, creator of Hangul (Korea, 15th c.)",
     ocean := ⟨0.9, 0.95, 0.4, 0.9, 0.2⟩, rationale := "Scholarly dedication" },
   { id := "tagore", name := "Rabindranath Tagore",
     shortDescription := "Poet and philosopher, Nobel laureate (India, 20th c.)",
     ocean := ⟨0.9, 0.65, 0.6, 0.85, 0.35⟩, rationale := "Biographical" }]

/-- `getPreset` in the presets module. -/
def getPreset (id : String) : Option PersonalityPreset :=
  PRESETS.find? (fun p => p.id == id)

/-- `applyPresetToState` in the presets module, translated from the source;
the thrown `Unknown personality preset` error becomes `Except.error`. -/
def applyPresetToState (state : EmotionEngineState) (presetId : String) :
    Except String EmotionEngineState :=
  match getPreset presetId with
  | none => .error ("Unknown personality preset: " ++ presetId)
  | some preset =>
    let personality := clampProfile preset.ocean
    .ok { state with
      personality := personality
      baseline := computeBaseline personality
      decayRates := computeDimensionDecayRates personality
      emotionDecayRates := computeEmotionDecayRates personality
      meta := { state.meta with totalUpdates := state.meta.totalUpdates + 1 } }

-- ===========================================================================
-- The range invariant (spec §3 invariant 1, §8) and preservation lemmas
-- ===========================================================================

/-- A value is in the named dimension's declared range. -/
def dimInRange (d : DimName) (v : ℚ) : Prop :=
  if isBipolar d then -1 ≤ v ∧ v ≤ 1 else 0 ≤ v ∧ v ≤ 1

instance (d : DimName) (v : ℚ) : Decidable (dimInRange d v) := by
  unfold dimInRange; infer_instance

/-- Invariant 1 of the spec: every dimension in range, every basic emotion,
every trait and every baseline entry in its range. -/
def ValidState (s : EmotionEngineState) : Prop :=
  (∀ d, dimInRange d (s.dimensions d)) ∧
  (∀ d, dimInRange d (s.baseline d)) ∧
  (∀ e, 0 ≤ s.basicEmotions e ∧ s.basicEmotions e ≤ 1) ∧
  (0 ≤ s.personality.openness ∧ s.personality.openness ≤ 1) ∧
  (0 ≤ s.personality.conscientiousness ∧ s.personality.conscientiousness ≤ 1) ∧
  (0 ≤ s.personality.extraversion ∧ s.personality.extraversion ≤ 1) ∧
  (0 ≤ s.personality.agreeableness ∧ s.personality.agreeableness ≤ 1) ∧
  (0 ≤ s.personality.neuroticism ∧ s.personality.neuroticism ≤ 1)

instance (s : EmotionEngineState) : Decidable (ValidState s) := by
  unfold ValidState; infer_instance

lemma clamp01_mem (v : ℚ) : 0 ≤ clamp01 v ∧ clamp01 v ≤ 1 :=
  ⟨le_max_left _ _, max_le (by norm_num) (min_le_left _ _)⟩

lemma clampBipolar_mem (v : ℚ) : -1 ≤ clampBipolar v ∧ clampBipolar v ≤ 1 :=
  ⟨le_max_left _ _, max_le (by norm_num) (min_le_left _ _)⟩

lemma clampOcean_mem (v : ℚ) : 0 ≤ clampOcean v ∧ clampOcean v ≤ 1 :=
  ⟨le_max_left _ _, max_le (by norm_num) (min_le_left _ _)⟩

lemma clampDimension_mem (d : DimName) (v : ℚ) :
    dimInRange d (clampDimension d v) := by
  unfold clampDimension dimInRange
  split_ifs
  · exact clampBipolar_mem v
  · exact clamp01_mem v

lemma defaultDims_mem (d : DimName) :
    dimInRange d (createDefaultDimensionalState d) := by
  cases d <;> refine ⟨?_, ?_⟩ <;>
    norm_num [createDefaultDimensionalState, dimInRange, isBipolar]

lemma defaultEmos_mem (e : EmoName) :
    0 ≤ createDefaultBasicEmotions e ∧ createDefaultBasicEmotions e ≤ 1 := by
  refine ⟨?_, ?_⟩ <;> norm_num [createDefaultBasicEmotions]

lemma computeBaseline_mem (p : OCEANProfile) (d : DimName) :
    dimInRange d (computeBaseline p d) := by
  cases d
  · exact clampBipolar_mem _
  · exact clampBipolar_mem _
  · exact clampBipolar_mem _
  · exact clamp01_mem _
  · exact clamp01_mem _
  · exact clamp01_mem _
  · exact clamp01_mem _

lemma applyEmotionMapping_mem (dims : Dims) (emos : Emos) (label : String)
    (i : ℚ) (hd : ∀ d, dimInRange d (dims d))
    (he : ∀ e, 0 ≤ emos e ∧ emos e ≤ 1) :
    (∀ d, dimInRange d ((applyEmotionMapping dims emos label i).1 d)) ∧
    (∀ e, 0 ≤ (applyEmotionMapping dims emos label i).2 e ∧
      (applyEmotionMapping dims emos label i).2 e ≤ 1) := by
  rcases hm : getEmotionMapping label with _ | m <;>
    simp only [applyEmotionMapping, hm]
  · exact ⟨hd, he⟩
  · exact ⟨fun d => clampDimension_mem d _, fun e => clamp01_mem _⟩

lemma ruminationFold_mem (l : List RuminationEntry) (de : Dims × Emos)
    (hd : ∀ d, dimInRange d (de.1 d)) (he : ∀ e, 0 ≤ de.2 e ∧ de.2 e ≤ 1) :
    (∀ d, dimInRange d ((l.foldl (fun acc entry =>
        applyEmotionMapping acc.1 acc.2 entry.label
          (entry.intensity * RUMINATION_EFFECT_SCALE)) de).1 d)) ∧
    (∀ e, 0 ≤ (l.foldl (fun acc entry =>
        applyEmotionMapping acc.1 acc.2 entry.label
          (entry.intensity * RUMINATION_EFFECT_SCALE)) de).2 e ∧
      (l.foldl (fun acc entry =>
        applyEmotionMapping acc.1 acc.2 entry.label
          (entry.intensity * RUMINATION_EFFECT_SCALE)) de).2 e ≤ 1) := by
  induction l generalizing de with
  | nil => exact ⟨hd, he⟩
  | cons a l ih =>
    simp only [List.foldl_cons]
    have h := applyEmotionMapping_mem de.1 de.2 a.label
      (a.intensity * RUMINATION_EFFECT_SCALE) hd he
    exact ih _ h.1 h.2

/-- Moving a value toward a target by a fraction `k ∈ [0,1]` stays within any
interval containing both. -/
lemma decay_step_range {lo hi v t k : ℚ} (hv : lo ≤ v ∧ v ≤ hi)
    (ht : lo ≤ t ∧ t ≤ hi) (hk : 0 ≤ k ∧ k ≤ 1) :
    lo ≤ v + (t - v) * k ∧ v + (t - v) * k ≤ hi := by
  constructor
  · nlinarith [mul_nonneg (sub_nonneg.mpr hv.1) (sub_nonneg.mpr hk.2),
      mul_nonneg (sub_nonneg.mpr ht.1) hk.1]
  · nlinarith [mul_nonneg (sub_nonneg.mpr hv.2) (sub_nonneg.mpr hk.2),
      mul_nonneg (sub_nonneg.mpr ht.2) hk.1]

-- ===========================================================================
-- Claim theorems: C1, C9
-- ===========================================================================

/-- C1: for every core operation (apply_decay, apply_stimulus,
advance_rumination with effect re-application, set_personality_trait,
apply_preset, reset) and every valid state, the resulting state keeps each
bipolar dimension in [-1,1], each unipolar dimension in [0,1], and every
basic emotion and personality trait in [0,1]. The decay fraction
`1 − 2^(−elapsed/halflife)` is quantified over all functions with values in
`[0,1]`, which it satisfies for non-negative elapsed time. -/
theorem coreOps_preserve_invariants :
    (∀ (g : ℚ → ℚ → ℚ) (elapsed : ℚ) (s : EmotionEngineState),
      (∀ x h, 0 ≤ g x h ∧ g x h ≤ 1) → ValidState s →
      ValidState (applyDecay g elapsed s)) ∧
    (∀ (cfg : EngineConfig) (s : EmotionEngineState) (label : String) (i : ℚ)
      (trigger stimId now : String), ValidState s →
      ValidState (applyStimulus cfg s label i trigger stimId now)) ∧
    (∀ (cfg : EngineConfig) (s : EmotionEngineState) (now : String),
      ValidState s → ValidState (advanceRuminationOp cfg s now)) ∧
    (∀ (s : EmotionEngineState) (t : TraitName) (v : ℚ), ValidState s →
      ValidState (setPersonalityTrait s t v)) ∧
    (∀ (s : EmotionEngineState) (id : String) (s' : EmotionEngineState),
      applyPresetToState s id = .ok s' → ValidState s → ValidState s') ∧
    (∀ s : EmotionEngineState, ValidState s → ValidState (resetState s)) := by
  refine ⟨?_, ?_, ?_, ?_, ?_, ?_⟩
  · -- apply_decay
    intro g elapsed s hg hs
    obtain ⟨hdim, hbase, hemo, hp⟩ := hs
    refine ⟨?_, hbase, ?_, hp⟩
    · intro d
      have hv := hdim d
      have hb := hbase d
      unfold dimInRange at hv hb ⊢
      dsimp only [applyDecay]
      by_cases hbip : isBipolar d = true <;> simp only [hbip, if_true] at hv hb ⊢ <;>
        [exact decay_step_range hv hb (hg elapsed (s.decayRates d));
         skip] <;>
        simp only [Bool.not_eq_true] at hbip <;>
        simp only [hbip, Bool.false_eq_true, if_false] at hv hb ⊢ <;>
        exact decay_step_range hv hb (hg elapsed (s.decayRates d))
    · intro e
      have hv := hemo e
      dsimp only [applyDecay]
      exact @decay_step_range 0 1 (s.basicEmotions e) 0
        (g elapsed (s.emotionDecayRates e)) hv (by norm_num)
        (hg elapsed (s.emotionDecayRates e))
  · -- apply_stimulus
    intro cfg s label i trigger stimId now hs
    obtain ⟨hdim, hbase, hemo, hp⟩ := hs
    have h := applyEmotionMapping_mem s.dimensions s.basicEmotions label
      (applyGoalModulation (inferGoals s.personality) label i) hdim hemo
    exact ⟨h.1, hbase, h.2, hp⟩
  · -- advance_rumination with effect re-application
    intro cfg s now hs
    obtain ⟨hdim, hbase, hemo, hp⟩ := hs
    have h := ruminationFold_mem
      (advanceRumination s.rumination cfg.ruminationMaxStages
        cfg.ruminationDecayFactor now).active
      (s.dimensions, s.basicEmotions) hdim hemo
    exact ⟨h.1, hbase, h.2, hp⟩
  · -- set_personality_trait
    intro s t v hs
    obtain ⟨hdim, hbase, hemo, hp⟩ := hs
    refine ⟨hdim, fun d => computeBaseline_mem _ d, hemo, ?_⟩
    have hc := clamp01_mem v
    cases t
    · exact ⟨hc, hp.2.1, hp.2.2.1, hp.2.2.2.1, hp.2.2.2.2⟩
    · exact ⟨hp.1, hc, hp.2.2.1, hp.2.2.2.1, hp.2.2.2.2⟩
    · exact ⟨hp.1, hp.2.1, hc, hp.2.2.2.1, hp.2.2.2.2⟩
    · exact ⟨hp.1, hp.2.1, hp.2.2.1, hc, hp.2.2.2.2⟩
    · exact ⟨hp.1, hp.2.1, hp.2.2.1, hp.2.2.2.1, hc⟩
  · -- apply_preset
    intro s id s' hok hs
    obtain ⟨hdim, hbase, hemo, hp⟩ := hs
    unfold applyPresetToState at hok
    rcases hpre : getPreset id with _ | preset <;> rw [hpre] at hok
    · exact absurd hok (by simp)
    · simp only [Except.ok.injEq] at hok
      subst hok
      exact ⟨hdim, fun d => computeBaseline_mem _ d, hemo,
        clampOcean_mem _, clampOcean_mem _, clampOcean_mem _,
        clampOcean_mem _, clampOcean_mem _⟩
  · -- reset
    intro s hs
    obtain ⟨hdim, hbase, hemo, hp⟩ := hs
    exact ⟨fun d => defaultDims_mem d, hbase, fun e => defaultEmos_mem e, hp⟩

lemma buildEmptyState_valid (now : String) : ValidState (buildEmptyState now) := by
  refine ⟨fun d => defaultDims_mem d, fun d => computeBaseline_mem _ d,
    fun e => defaultEmos_mem e, ?_, ?_, ?_, ?_, ?_⟩ <;>
    exact ⟨by norm_num [buildEmptyState, createDefaultPersonality],
      by norm_num [buildEmptyState, createDefaultPersonality]⟩

/-- Witness for C1: every core operation applied to the freshly built default
state yields a valid state. -/
theorem coreOps_preserve_invariants_witness :
    ValidState (applyDecay (fun _ _ => 0.5) 12 (buildEmptyState "t0")) ∧
    ValidState (applyStimulus ⟨0.7, 0.5, 5, 0.8, 50⟩ (buildEmptyState "t0")
      "happy" 0.7 "greeting" "s1" "t1") ∧
    ValidState (advanceRuminationOp ⟨0.7, 0.5, 5, 0.8, 50⟩ (buildEmptyState "t0") "t1") ∧
    ValidState (setPersonalityTrait (buildEmptyState "t0") .neuroticism 0.8) ∧
    ValidState ((applyPresetToState (buildEmptyState "t0") "mandela").toOption.getD
      (buildEmptyState "t0")) ∧
    ValidState (resetState (buildEmptyState "t0")) :=
  ⟨coreOps_preserve_invariants.1 (fun _ _ => 0.5) 12 (buildEmptyState "t0")
      (fun _ _ => by norm_num) (buildEmptyState_valid "t0"),
   coreOps_preserve_invariants.2.1 ⟨0.7, 0.5, 5, 0.8, 50⟩ (buildEmptyState "t0")
      "happy" 0.7 "greeting" "s1" "t1" (buildEmptyState_valid "t0"),
   coreOps_preserve_invariants.2.2.1 ⟨0.7, 0.5, 5, 0.8, 50⟩ (buildEmptyState "t0")
      "t1" (buildEmptyState_valid "t0"),
   coreOps_preserve_invariants.2.2.2.1 (buildEmptyState "t0") .neuroticism 0.8
      (buildEmptyState_valid "t0"),
   coreOps_preserve_invariants.2.2.2.2.1 (buildEmptyState "t0") "mandela"
      ((applyPresetToState (buildEmptyState "t0") "mandela").toOption.getD
        (buildEmptyState "t0")) rfl (buildEmptyState_valid "t0"),
   coreOps_preserve_invariants.2.2.2.2.2 (buildEmptyState "t0")
      (buildEmptyState_valid "t0")⟩

/-- C9: `apply_preset` with a catalogued id returns a state whose personality
is the preset's OCEAN profile clamped per trait, whose baseline and both decay
tables are recomputed from that personality, and whose `meta.totalUpdates` is
incremented by exactly 1, leaving dimensions, basic emotions, rumination and
recent stimuli unchanged; an unknown id yields an error (`Except.error`, the
source's thrown exception) and no state. -/
theorem applyPreset_spec :
    (∀ (s : EmotionEngineState) (id : String) (preset : PersonalityPreset),
      getPreset id = some preset →
      ∃ s', applyPresetToState s id = .ok s' ∧
        s'.personality = clampProfile preset.ocean ∧
        s'.baseline = computeBaseline (clampProfile preset.ocean) ∧
        s'.decayRates = computeDimensionDecayRates (clampProfile preset.ocean) ∧
        s'.emotionDecayRates = computeEmotionDecayRates (clampProfile preset.ocean) ∧
        s'.meta.totalUpdates = s.meta.totalUpdates + 1 ∧
        s'.dimensions = s.dimensions ∧
        s'.basicEmotions = s.basicEmotions ∧
        s'.rumination = s.rumination ∧
        s'.recentStimuli = s.recentStimuli) ∧
    (∀ (s : EmotionEngineState) (id : String), getPreset id = none →
      applyPresetToState s id = .error ("Unknown personality preset: " ++ id)) := by
  constructor
  · intro s id preset h
    refine ⟨{ s with
        personality := clampProfile preset.ocean
        baseline := computeBaseline (clampProfile preset.ocean)
        decayRates := computeDimensionDecayRates (clampProfile preset.ocean)
        emotionDecayRates := computeEmotionDecayRates (clampProfile preset.ocean)
        meta := { s.meta with totalUpdates := s.meta.totalUpdates + 1 } },
      ?_, rfl, rfl, rfl, rfl, rfl, rfl, rfl, rfl, rfl⟩
    unfold applyPresetToState
    rw [h]
  · intro s id h
    unfold applyPresetToState
    rw [h]

/-- Witness for C9: the catalogued preset "mandela" succeeds on the default
state with the catalogued profile; the unknown id "zzz" errors. -/
theorem applyPreset_spec_witness :
    applyPresetToState (buildEmptyState "t0") "zzz" =
      .error ("Unknown personality preset: " ++ "zzz") ∧
    ∃ s', applyPresetToState (buildEmptyState "t0") "mandela" = .ok s' ∧
      s'.personality = clampProfile ⟨0.9, 0.9, 0.85, 0.9, 0.1⟩ := by
  constructor
  · exact applyPreset_spec.2 (buildEmptyState "t0") "zzz" rfl
  · obtain ⟨s', h1, h2, -, -, -, -, -, -, -, -⟩ :=
      applyPreset_spec.1 (buildEmptyState "t0") "mandela"
        ⟨"mandela", "Nelson Mandela",
          "Anti-apartheid leader, President of South Africa (20th c.)",
          ⟨0.9, 0.9, 0.85, 0.9, 0.1⟩, "Leadership analyses"⟩ rfl
    exact ⟨s', h1, h2⟩


-- ===========================================================================
-- Primary-emotion selection (modelled from the spec §4.1 and
-- emotion-model.test.ts; emotion-model.ts is not under src/)
-- ===========================================================================

/-- The JSON field name of each basic emotion. -/
def emoNameStr : EmoName → String
  | .anger => "anger"
  | .disgust => "disgust"
  | .fear => "fear"
  | .happiness => "happiness"
  | .sadness => "sadness"
  | .surprise => "surprise"

/-- Position of each emotion name in ascending alphabetical order
(anger < disgust < fear < happiness < sadness < surprise). -/
def emoAlphaIdx : EmoName → ℕ
  | .anger => 0
  | .disgust => 1
  | .fear => 2
  | .happiness => 3
  | .sadness => 4
  | .surprise => 5

/-- The six emotion names in ascending alphabetical order. -/
def emoAlpha : List EmoName :=
  [.anger, .disgust, .fear, .happiness, .sadness, .surprise]

/-- Modelled from the spec: `emotion-model.ts` is not under src/. The running
argmax of `computePrimaryEmotion`: scan the six emotions in alphabetical
order, replacing the current best only on a strictly greater value, so ties
keep the alphabetically first name. -/
def primaryBest (e : Emos) : EmoName :=
  let b1 := if e EmoName.anger < e EmoName.disgust then EmoName.disgust else EmoName.anger
  let b2 := if e b1 < e EmoName.fear then EmoName.fear else b1
  let b3 := if e b2 < e EmoName.happiness then EmoName.happiness else b2
  let b4 := if e b3 < e EmoName.sadness then EmoName.sadness else b3
  if e b4 < e EmoName.surprise then EmoName.surprise else b4

/-- Modelled from the spec: `emotion-model.ts` is not under src/.
`computePrimaryEmotion`: argmax over the six basic emotions, `"neutral"` when
all values are ≤ 0.05, ties broken alphabetically ascending. -/
def computePrimaryEmotion (e : Emos) : String :=
  if e (primaryBest e) ≤ 0.05 then "neutral" else emoNameStr (primaryBest e)

/-- `b` is the first maximal element of `l` in alphabetical order. -/
def FirstMax (e : Emos) (l : List EmoName) (b : EmoName) : Prop :=
  b ∈ l ∧ (∀ m ∈ l, e m ≤ e b) ∧
    (∀ m ∈ l, e m = e b → emoAlphaIdx b ≤ emoAlphaIdx m)

lemma firstMax_step (e : Emos) (l : List EmoName) (b n : EmoName)
    (hfm : FirstMax e l b) (hn : ∀ x ∈ l, emoAlphaIdx x < emoAlphaIdx n) :
    FirstMax e (l ++ [n]) (if e b < e n then n else b) := by
  obtain ⟨hmem, hle, htie⟩ := hfm
  by_cases h : e b < e n <;> simp only [h, if_true, if_false]
  · refine ⟨List.mem_append_right _ (List.mem_singleton_self n), ?_, ?_⟩
    · intro m hm
      rcases List.mem_append.mp hm with hm | hm
      · exact le_trans (hle m hm) h.le
      · obtain rfl := List.mem_singleton.mp hm
        exact le_rfl
    · intro m hm heq
      rcases List.mem_append.mp hm with hm | hm
      · exact absurd heq (ne_of_lt (lt_of_le_of_lt (hle m hm) h))
      · obtain rfl := List.mem_singleton.mp hm
        exact le_rfl
  · refine ⟨List.mem_append_left _ hmem, ?_, ?_⟩
    · intro m hm
      rcases List.mem_append.mp hm with hm | hm
      · exact hle m hm
      · obtain rfl := List.mem_singleton.mp hm
        exact not_lt.mp h
    · intro m hm heq
      rcases List.mem_append.mp hm with hm | hm
      · exact htie m hm heq
      · obtain rfl := List.mem_singleton.mp hm
        exact (hn b hmem).le

lemma primaryBest_firstMax (e : Emos) : FirstMax e emoAlpha (primaryBest e) := by
  have base : FirstMax e [EmoName.anger] EmoName.anger := by
    refine ⟨List.mem_singleton_self _, ?_, ?_⟩
    · intro m hm
      obtain rfl := List.mem_singleton.mp hm
      exact le_rfl
    · intro m hm _
      obtain rfl := List.mem_singleton.mp hm
      exact le_rfl
  have s1 := firstMax_step e _ _ EmoName.disgust base (by decide)
  have s2 := firstMax_step e _ _ EmoName.fear s1 (by decide)
  have s3 := firstMax_step e _ _ EmoName.happiness s2 (by decide)
  have s4 := firstMax_step e _ _ EmoName.sadness s3 (by decide)
  have s5 := firstMax_step e _ _ EmoName.surprise s4 (by decide)
  exact s5

lemma emoAlpha_complete (m : EmoName) : m ∈ emoAlpha := by
  cases m <;> simp [emoAlpha]

-- ===========================================================================
-- Claim theorem: C5
-- ===========================================================================

/-- C5: `computePrimaryEmotion` returns "neutral" when all six values are
≤ 0.05, and otherwise returns the name of the emotion with the maximum value,
breaking ties by the alphabetically first name among the tied maxima. -/
theorem computePrimaryEmotion_spec (e : Emos) :
    ((∀ n, e n ≤ 0.05) → computePrimaryEmotion e = "neutral") ∧
    ((∃ n, 0.05 < e n) →
      ∃ n, computePrimaryEmotion e = emoNameStr n ∧
        (∀ m, e m ≤ e n) ∧
        (∀ m, e m = e n → emoAlphaIdx n ≤ emoAlphaIdx m)) := by
  obtain ⟨hmem, hle, htie⟩ := primaryBest_firstMax e
  constructor
  · intro hall
    unfold computePrimaryEmotion
    rw [if_pos (hall (primaryBest e))]
  · rintro ⟨n, hn⟩
    have hgt : ¬ e (primaryBest e) ≤ 0.05 :=
      not_le.mpr (lt_of_lt_of_le hn (hle n (emoAlpha_complete n)))
    unfold computePrimaryEmotion
    rw [if_neg hgt]
    exact ⟨primaryBest e, rfl,
      fun m => hle m (emoAlpha_complete m),
      fun m hm => htie m (emoAlpha_complete m) hm⟩

/-- Witness for C5: all-zero emotions give "neutral"; an all-0.5 tie resolves
to the alphabetically first name, "anger". -/
theorem computePrimaryEmotion_spec_witness :
    computePrimaryEmotion (fun _ => 0) = "neutral" ∧
    ∃ n, computePrimaryEmotion (fun _ => 0.5) = emoNameStr n ∧
      (∀ _m : EmoName, (0.5 : ℚ) ≤ (0.5 : ℚ)) ∧
      (∀ m : EmoName, (0.5 : ℚ) = (0.5 : ℚ) → emoAlphaIdx n ≤ emoAlphaIdx m) :=
  ⟨(computePrimaryEmotion_spec (fun _ => 0)).1 (fun _ => by norm_num),
   (computePrimaryEmotion_spec (fun _ => 0.5)).2 ⟨EmoName.anger, by norm_num⟩⟩


-- ===========================================================================
-- Classifier (src/src/classify/classifier.ts, translated from the source;
-- HTTP and parsing outcomes are passed in as explicit arguments)
-- ===========================================================================

/-- Executable model of JS `String.prototype.toLowerCase` (Lean's own
`String.toLower` is not kernel-reducible, which concrete witnesses need). -/
def strToLower (s : String) : String := String.mk (s.data.map Char.toLower)

/-- Executable model of JS `String.prototype.trim`: strip whitespace from
both ends. -/
def strTrim (s : String) : String :=
  String.mk (((s.data.dropWhile Char.isWhitespace).reverse.dropWhile
    Char.isWhitespace).reverse)

/-- `ClassificationResult` in types.ts. -/
structure ClassificationResult where
  label : String
  intensity : ℚ
  reason : String
  confidence : ℚ
  deriving DecidableEq, Repr

/-- `NEUTRAL_RESULT` in classifier.ts. -/
def NEUTRAL_RESULT : ClassificationResult :=
  { label := "neutral", intensity := 0,
    reason := "classification unavailable", confidence := 0 }

/-- `coerceClassificationResult` in classifier.ts, translated from the
source: trim+lowercase the label, fall back to neutral when the label is
unknown or the confidence is below `confidenceMin`, otherwise clamp the
numeric fields (the JS `result.reason.trim() || "unsure"` becomes a test for
the empty string). -/
def coerceClassificationResult (result : ClassificationResult)
    (labels : List String) (confidenceMin : ℚ) : ClassificationResult :=
  let normalizedLabel := strToLower (strTrim result.label)
  let isKnown := labels.contains normalizedLabel
  if ¬ isKnown ∨ result.confidence < confidenceMin then NEUTRAL_RESULT
  else
    { label := normalizedLabel,
      intensity := max 0 (min 1 result.intensity),
      reason := if strTrim result.reason = "" then "unsure" else strTrim result.reason,
      confidence := max 0 (min 1 result.confidence) }

/-- Outcome of one classification attempt's I/O and parsing pipeline:
network failure (fetch threw or timed out), a non-OK HTTP status, a body
that could not be parsed into the four required fields, or a parsed raw
result. -/
inductive AttemptOutcome where
  | networkError
  | httpError (status : ℕ)
  | parseError
  | parsed (result : ClassificationResult)
  deriving DecidableEq, Repr

/-- `classifyEmotion` in classifier.ts with its I/O embedded as the attempt
outcome, translated from the source's control flow: a configured
`classifierUrl` bypasses the LLM; otherwise an `apiKey` is required and its
absence is a configuration error rethrown to the caller (`Except.error`);
every other failure is caught and yields `NEUTRAL_RESULT`; a parsed result
is passed through `coerceClassificationResult`. -/
def classifyEmotion (classifierUrl apiKey : Option String)
    (emotionLabels : List String) (confidenceMin : ℚ)
    (outcome : AttemptOutcome) : Except String ClassificationResult :=
  match classifierUrl with
  | some _ =>
    match outcome with
    | .parsed r => .ok (coerceClassificationResult r emotionLabels confidenceMin)
    | _ => .ok NEUTRAL_RESULT
  | none =>
    match apiKey with
    | none => .error "Emotion classifier requires either classifierUrl or apiKey."
    | some _ =>
      match outcome with
      | .parsed r => .ok (coerceClassificationResult r emotionLabels confidenceMin)
      | _ => .ok NEUTRAL_RESULT

-- ===========================================================================
-- Claim theorem: C6
-- ===========================================================================

/-- C6: with a classifier configured, any non-configuration failure (network
error, non-OK HTTP status, unparseable response) yields the neutral result
`{label := "neutral", intensity := 0, confidence := 0}` rather than an
escaping error; a parsed result whose normalised (trimmed, lowercased) label
is not in the configured label list or whose confidence is below
`confidenceMin` is also replaced by the neutral result; and a configuration
error (neither classifierUrl nor apiKey) is surfaced to the caller. -/
theorem classifyEmotion_spec :
    (NEUTRAL_RESULT.label = "neutral" ∧ NEUTRAL_RESULT.intensity = 0 ∧
      NEUTRAL_RESULT.confidence = 0) ∧
    (∀ (url key : Option String) (labels : List String) (cmin : ℚ)
      (oc : AttemptOutcome), (url.isSome ∨ key.isSome) →
      (∀ r, oc ≠ .parsed r) →
      classifyEmotion url key labels cmin oc = .ok NEUTRAL_RESULT) ∧
    (∀ (url key : Option String) (labels : List String) (cmin : ℚ)
      (r : ClassificationResult), (url.isSome ∨ key.isSome) →
      (labels.contains (strToLower (strTrim r.label)) = false ∨
        r.confidence < cmin) →
      classifyEmotion url key labels cmin (.parsed r) = .ok NEUTRAL_RESULT) ∧
    (∀ (labels : List String) (cmin : ℚ) (oc : AttemptOutcome),
      ∃ msg, classifyEmotion none none labels cmin oc = .error msg) := by
  refine ⟨⟨rfl, rfl, rfl⟩, ?_, ?_, ?_⟩
  · intro url key labels cmin oc hcfg hoc
    cases url with
    | some u => cases oc <;> first | rfl | exact absurd rfl (hoc _)
    | none =>
      cases key with
      | some k => cases oc <;> first | rfl | exact absurd rfl (hoc _)
      | none => rcases hcfg with h | h <;> simp at h
  · intro url key labels cmin r hcfg hbad
    have hcond : ¬ (labels.contains (strToLower (strTrim r.label)) = true) ∨
        r.confidence < cmin := by
      rcases hbad with h | h
      · exact Or.inl (fun hc => Bool.false_ne_true (h ▸ hc))
      · exact Or.inr h
    have hco : coerceClassificationResult r labels cmin = NEUTRAL_RESULT := by
      unfold coerceClassificationResult
      exact if_pos hcond
    cases url with
    | some u => simp [classifyEmotion, hco]
    | none =>
      cases key with
      | some k => simp [classifyEmotion, hco]
      | none => rcases hcfg with h | h <;> simp at h
  · intro labels cmin oc
    exact ⟨_, rfl⟩

/-- Witness for C6: a network failure with a configured endpoint yields
neutral; a parsed result with an unknown label yields neutral; a parsed
result below the confidence floor yields neutral. -/
theorem classifyEmotion_spec_witness :
    classifyEmotion (some "http://cls") none ["happy"] 0.3 .networkError =
      .ok NEUTRAL_RESULT ∧
    classifyEmotion (some "http://cls") none ["happy"] 0.3
      (.parsed ⟨"Bogus", 0.5, "r", 0.9⟩) = .ok NEUTRAL_RESULT ∧
    classifyEmotion none (some "sk-1") ["happy"] 0.3
      (.parsed ⟨"happy", 0.5, "r", 0.1⟩) = .ok NEUTRAL_RESULT :=
  ⟨classifyEmotion_spec.2.1 (some "http://cls") none ["happy"] 0.3 .networkError
      (Or.inl rfl) (fun r h => by simp at h),
   classifyEmotion_spec.2.2.1 (some "http://cls") none ["happy"] 0.3
      ⟨"Bogus", 0.5, "r", 0.9⟩ (Or.inl rfl) (Or.inl (by decide)),
   classifyEmotion_spec.2.2.1 none (some "sk-1") ["happy"] 0.3
      ⟨"happy", 0.5, "r", 0.1⟩ (Or.inr rfl) (Or.inr (by norm_num))⟩

-- ===========================================================================
-- v1 → v2 schema migration (modelled from the spec §4.7 and
-- migrate-v1.test.ts; migrate-v1.ts is not under src/)
-- ===========================================================================

/-- A v1 stimulus: string-valued intensity (`low|medium|high`). -/
structure V1Stimulus where
  timestamp : String
  label : String
  intensity : String
  reason : String
  confidence : ℚ
  deriving DecidableEq, Repr

/-- A v1 per-role bucket. -/
structure V1Bucket where
  latest : Option V1Stimulus
  history : List V1Stimulus
  deriving DecidableEq, Repr

/-- A v1 top-level state: version plus per-user/per-agent buckets. -/
structure V1State where
  version : ℕ
  users : List (String × V1Bucket)
  agents : List (String × V1Bucket)
  deriving DecidableEq, Repr

/-- Modelled from the spec: `migrate-v1.ts` is not under src/.
`low|medium|high → 0.3|0.6|0.9`; other strings are unspecified by the spec
and its tests and fall back to medium. -/
def convertIntensity : String → ℚ
  | "low" => 0.3
  | "medium" => 0.6
  | "high" => 0.9
  | _ => 0.6

/-- Modelled from the spec: `migrate-v1.ts` is not under src/. Convert one
stimulus, replacing the string intensity with its numeric value. -/
def migrateStimulus (s : V1Stimulus) : BucketStimulus :=
  { timestamp := s.timestamp, label := s.label,
    intensity := convertIntensity s.intensity,
    reason := s.reason, confidence := s.confidence }

/-- Modelled from the spec: `migrate-v1.ts` is not under src/. Convert one
bucket, converting `latest` and every history entry. -/
def migrateBucket (b : V1Bucket) : RoleBucket :=
  { latest := b.latest.map migrateStimulus,
    history := b.history.map migrateStimulus }

/-- Modelled from the spec §4.7: rebuild as a v2 default state, then copy
each users/agents bucket with converted intensities; null/undefined input
(`none`) yields the empty default v2 state. -/
def migrateV1State (v1 : Option V1State) (now : String) : EmotionEngineState :=
  match v1 with
  | none => buildEmptyState now
  | some v =>
    { buildEmptyState now with
      users := v.users.map (fun kb => (kb.1, migrateBucket kb.2)),
      agents := v.agents.map (fun kb => (kb.1, migrateBucket kb.2)) }

-- ===========================================================================
-- Claim theorem: C7
-- ===========================================================================

/-- C7: migration of a v1 state produces a version-2 state that preserves
each users/agents bucket (same keys, each bucket converted pointwise) while
converting intensity "low" to 0.3, "medium" to 0.6 and "high" to 0.9 and all
other stimulus fields unchanged; migrating null/undefined input yields the
empty default v2 state; and on read, a file containing `version: 1` is
rebuilt as a (default) v2 state rather than failing. -/
theorem migrateV1_spec :
    (∀ (v : V1State) (now : String),
      (migrateV1State (some v) now).version = 2 ∧
      (migrateV1State (some v) now).rumination.active = [] ∧
      (migrateV1State (some v) now).users.map Prod.fst = v.users.map Prod.fst ∧
      (migrateV1State (some v) now).agents.map Prod.fst = v.agents.map Prod.fst ∧
      (∀ kb ∈ v.users, (kb.1, migrateBucket kb.2) ∈ (migrateV1State (some v) now).users) ∧
      (∀ kb ∈ v.agents, (kb.1, migrateBucket kb.2) ∈ (migrateV1State (some v) now).agents)) ∧
    (∀ st : V1Stimulus,
      (migrateStimulus st).timestamp = st.timestamp ∧
      (migrateStimulus st).label = st.label ∧
      (migrateStimulus st).reason = st.reason ∧
      (migrateStimulus st).confidence = st.confidence ∧
      (st.intensity = "low" → (migrateStimulus st).intensity = 0.3) ∧
      (st.intensity = "medium" → (migrateStimulus st).intensity = 0.6) ∧
      (st.intensity = "high" → (migrateStimulus st).intensity = 0.9)) ∧
    (∀ now, migrateV1State none now = buildEmptyState now) ∧
    (∀ (s : EmotionEngineState) (now : String), s.version = 1 →
      readStateFile (some s) now = buildEmptyState now ∧
      (readStateFile (some s) now).version = 2) := by
  refine ⟨?_, ?_, fun _ => rfl, ?_⟩
  · intro v now
    refine ⟨rfl, rfl, ?_, ?_, ?_, ?_⟩
    · show (v.users.map (fun kb => (kb.1, migrateBucket kb.2))).map Prod.fst = _
      rw [List.map_map]
      rfl
    · show (v.agents.map (fun kb => (kb.1, migrateBucket kb.2))).map Prod.fst = _
      rw [List.map_map]
      rfl
    · intro kb hkb
      exact List.mem_map_of_mem _ hkb
    · intro kb hkb
      exact List.mem_map_of_mem _ hkb
  · intro st
    refine ⟨rfl, rfl, rfl, rfl, ?_, ?_, ?_⟩ <;>
      intro h <;> simp [migrateStimulus, convertIntensity, h]
  · intro s now h
    have hv : s.version ≠ 2 := by omega
    constructor
    · simp [readStateFile, hv]
    · simp [readStateFile, hv, buildEmptyState]

/-- Witness for C7 at the test fixture's shape: one user bucket whose history
carries the three string intensities. -/
theorem migrateV1_spec_witness :
    (migrateV1State (some ⟨1,
      [("u1", ⟨some ⟨"2026-02-06T12:00:00Z", "calm", "low", "r", 0.5⟩,
        [⟨"", "calm", "low", "r", 0.5⟩, ⟨"", "excited", "medium", "r", 0.5⟩,
         ⟨"", "angry", "high", "r", 0.5⟩]⟩)], []⟩) "t0").version = 2 ∧
    (migrateStimulus ⟨"", "calm", "low", "r", 0.5⟩).intensity = 0.3 ∧
    (migrateStimulus ⟨"", "excited", "medium", "r", 0.5⟩).intensity = 0.6 ∧
    (migrateStimulus ⟨"", "angry", "high", "r", 0.5⟩).intensity = 0.9 ∧
    readStateFile (some { buildEmptyState "t0" with version := 1 }) "t0" =
      buildEmptyState "t0" :=
  ⟨(migrateV1_spec.1 ⟨1,
      [("u1", ⟨some ⟨"2026-02-06T12:00:00Z", "calm", "low", "r", 0.5⟩,
        [⟨"", "calm", "low", "r", 0.5⟩, ⟨"", "excited", "medium", "r", 0.5⟩,
         ⟨"", "angry", "high", "r", 0.5⟩]⟩)], []⟩ "t0").1,
   (migrateV1_spec.2.1 ⟨"", "calm", "low", "r", 0.5⟩).2.2.2.2.1 rfl,
   (migrateV1_spec.2.1 ⟨"", "excited", "medium", "r", 0.5⟩).2.2.2.2.2.1 rfl,
   (migrateV1_spec.2.1 ⟨"", "angry", "high", "r", 0.5⟩).2.2.2.2.2.2 rfl,
   (migrateV1_spec.2.2.2 { buildEmptyState "t0" with version := 1 } "t0" rfl).1⟩

-- ===========================================================================
-- File locking (src/unnamed/part_005 `acquireLock`, translated from the
-- source with each filesystem call's outcome passed in)
-- ===========================================================================

/-- Outcome of one `fs.open(path, "wx")` exclusive-create attempt: success,
or an error carrying its `code` (`"EEXIST"` when the file already exists). -/
inductive OpenResult where
  | ok
  | error (code : String)
  deriving DecidableEq, Repr

/-- `DEFAULT_STALE_MS` in state-file.ts. -/
def DEFAULT_STALE_MS : ℚ := 10000

/-- `acquireLock` in state-file.ts, translated from the source. `firstOpen`
is the first exclusive-create attempt; `statMtime` the lock file's mtime in
ms (`none` when `stat` threw, i.e. the lock vanished in a race); `nowMs` is
`Date.now()`; `retryOpen` the second exclusive-create attempt after
unlinking a stale lock (its exceptions are caught by the source, so any
non-ok result gives `false`; the ignored `unlink` outcome does not appear). -/
def acquireLock (firstOpen : OpenResult) (statMtime : Option ℚ) (nowMs : ℚ)
    (retryOpen : OpenResult) (staleMs : ℚ := DEFAULT_STALE_MS) : Bool :=
  match firstOpen with
  | .ok => true
  | .error code =>
    if code ≠ "EEXIST" then false
    else
      match statMtime with
      | none => false
      | some mtime =>
        if staleMs < nowMs - mtime then
          match retryOpen with
          | .ok => true
          | .error _ => false
        else false

-- ===========================================================================
-- Claim theorem: C8
-- ===========================================================================

/-- C8: `acquireLock` returns true when the exclusive create succeeds; if the
lock exists and its mtime is older than the stale timeout (default 10000 ms)
it retries the exclusive create exactly once, succeeding iff that retry
succeeds; in every other case (fresh existing lock, non-EEXIST error, race
during the stale check) it returns false rather than throwing. -/
theorem acquireLock_spec :
    (∀ st now retry stale, acquireLock .ok st now retry stale = true) ∧
    (∀ code st now retry stale, code ≠ "EEXIST" →
      acquireLock (.error code) st now retry stale = false) ∧
    (∀ now retry stale,
      acquireLock (.error "EEXIST") none now retry stale = false) ∧
    (∀ mtime now retry stale, now - mtime ≤ stale →
      acquireLock (.error "EEXIST") (some mtime) now retry stale = false) ∧
    (∀ mtime now stale, stale < now - mtime →
      acquireLock (.error "EEXIST") (some mtime) now .ok stale = true) ∧
    (∀ mtime now stale code, stale < now - mtime →
      acquireLock (.error "EEXIST") (some mtime) now (.error code) stale = false) ∧
    DEFAULT_STALE_MS = 10000 := by
  refine ⟨fun _ _ _ _ => rfl, ?_, ?_, ?_, ?_, ?_, rfl⟩
  · intro code st now retry stale h
    simp [acquireLock, h]
  · intro now retry stale
    simp [acquireLock]
  · intro mtime now retry stale h
    simp [acquireLock, not_lt.mpr h]
  · intro mtime now stale h
    simp [acquireLock, h]
  · intro mtime now stale code h
    simp [acquireLock, h]

/-- Witness for C8 at concrete inputs: a non-EEXIST error, a fresh lock, a
stale lock with successful retry, and a stale lock with failing retry. -/
theorem acquireLock_spec_witness :
    acquireLock .ok none 0 .ok 10000 = true ∧
    acquireLock (.error "EACCES") none 0 .ok 10000 = false ∧
    acquireLock (.error "EEXIST") none 0 .ok 10000 = false ∧
    acquireLock (.error "EEXIST") (some 0) 5000 .ok 10000 = false ∧
    acquireLock (.error "EEXIST") (some 0) 20000 .ok 10000 = true ∧
    acquireLock (.error "EEXIST") (some 0) 20000 (.error "EEXIST") 10000 = false :=
  ⟨acquireLock_spec.1 none 0 .ok 10000,
   acquireLock_spec.2.1 "EACCES" none 0 .ok 10000 (by decide),
   acquireLock_spec.2.2.1 0 .ok 10000,
   acquireLock_spec.2.2.2.1 0 5000 .ok 10000 (by norm_num),
   acquireLock_spec.2.2.2.2.1 0 20000 10000 (by norm_num),
   acquireLock_spec.2.2.2.2.2.1 0 20000 10000 "EEXIST" (by norm_num)⟩
